import Mathlib

/-!
Shallow embedding of `app/collect.py` (tplink_to_influxdb).

The script polls TP-Link Kasa smart plugs (the Tapo loop in `main` is
commented out, but `poll_tapo` is still defined), builds a buffer of
InfluxDB points from the collected stats, and writes that buffer to every
configured InfluxDB destination.

Modelling conventions:
- Python floats are modelled as `ℚ` (the claims only involve exact
  arithmetic: division and multiplication by 1000, truncation to int).
- A poller's return value is a pair of `PyVal`: either the literal
  `False` or a number, since `poll_tapo` returns `(False, False)` on
  failure while `poll_kasa` returns numbers.
- A Python call that raises an exception which escapes the function is
  modelled as `Except.error ()`.
- The behaviour of the external world (device responses, InfluxDB
  availability) is an explicit input to each function.
-/

set_option autoImplicit false

namespace Collect

/-- A Python value appearing in a poller's return pair: the literal
`False`, or a number. -/
inductive PyVal where
  | pyFalse : PyVal
  | num : ℚ → PyVal
deriving DecidableEq, Repr

/-- Python `x is False` on a poller return value. -/
def pyIsFalse : PyVal → Bool
  | .pyFalse => true
  | .num _ => false

/-- Python `x == 0` on a poller return value (`False == 0` is `True`). -/
def pyEqZero : PyVal → Bool
  | .pyFalse => true
  | .num q => if q = 0 then true else false

/-- Python truthiness of a poller return value (`if x:`). -/
def pyTruthy : PyVal → Bool
  | .pyFalse => false
  | .num q => if q = 0 then false else true

/-- Python `float(x)` on a poller return value (`float(False) = 0.0`). -/
def pyFloat : PyVal → ℚ
  | .pyFalse => 0
  | .num q => q

/-- Python `int(q)` on a float: truncation toward zero. -/
def pyTrunc (q : ℚ) : ℤ :=
  if 0 ≤ q then ⌊q⌋ else ⌈q⌉

/-- The emeter data of a Kasa plug once `p.update()` has succeeded:
`p.emeter_today` (kWh) and `p.emeter_realtime["power_mw"]` (mW). -/
structure EmeterData where
  emeter_today : ℚ
  power_mw : ℚ
deriving DecidableEq, Repr

/-- Observable behaviour of the Kasa plug at one address:
whether `SmartPlug(ip)` / `asyncio.run(p.update())` succeed, and, when they
do, whether the emeter fields can be read (`none` models the inner
`except` firing while reading `emeter_today` / `emeter_realtime`). -/
structure KasaDev where
  updateOk : Bool
  emeter : Option EmeterData
deriving DecidableEq, Repr

/-- The function `poll_kasa(ip)`.  `SmartPlug(ip)` and `asyncio.run(p.update())` are
outside any `try`, so their failure escapes as an exception
(`Except.error`).  The emeter reads are inside a `try` whose `except`
yields `(0, 0)`.  On success: `now_usage_w = power_mw / 1000`,
`today_usage = emeter_today * 1000`. -/
def poll_kasa (d : KasaDev) : Except Unit (PyVal × PyVal) :=
  if d.updateOk then
    match d.emeter with
    | some e => .ok (.num (e.power_mw / 1000), .num (e.emeter_today * 1000))
    | none => .ok (.num 0, .num 0)
  else .error ()

/-- The dict `usage_dict["result"]` of a Tapo plug: each field is `none`
when the key is absent from the device's JSON response. -/
structure TapoResult where
  today_energy : Option ℚ
  current_power : Option ℚ
deriving DecidableEq, Repr

/-- The dict returned by `p110.getEnergyUsage()`: the `"result"` key may
be absent. -/
structure TapoUsage where
  result : Option TapoResult
deriving DecidableEq, Repr

/-- Observable behaviour of a Tapo plug: whether the
handshake/login/getEnergyUsage sequence inside the `try` succeeds, and
the usage dict it returns when it does. -/
structure TapoDev where
  sessionOk : Bool
  usage : TapoUsage
deriving DecidableEq, Repr

/-- The function `poll_tapo(ip, user, passw)`.  Handshake, login and
`getEnergyUsage` sit in a `try` whose `except` returns `(False, False)`;
the dict lookups `usage_dict["result"]["today_energy"]` and
`["current_power"]` happen after the `try`, so a missing key raises a
`KeyError` that escapes (`Except.error`).  On success:
`now_usage_w = current_power / 1000`, `today_usage = today_energy`. -/
def poll_tapo (d : TapoDev) : Except Unit (PyVal × PyVal) :=
  if d.sessionOk then
    match d.usage.result with
    | none => .error ()
    | some r =>
      match r.today_energy with
      | none => .error ()
      | some te =>
        match r.current_power with
        | none => .error ()
        | some cp => .ok (.num (cp / 1000), .num te)
  else .ok (.pyFalse, .pyFalse)

/-- One entry of `config["kasa"]["devices"]`: a name and an ip. -/
structure KasaConf where
  name : String
  ip : String
deriving DecidableEq, Repr

/-- One value of the `stats` dict built by `main`'s device loop. -/
structure StatsEntry where
  today_usage : PyVal
  now_usage_w : PyVal
  time : ℤ
deriving DecidableEq, Repr

/-- Python dict assignment `stats[k] = v` on a dict modelled as an insertion-ordered
association list: an existing key keeps its position and gets the new
value, a new key is appended. -/
def dictSet (d : List (String × StatsEntry)) (k : String) (v : StatsEntry) :
    List (String × StatsEntry) :=
  if k ∈ d.map Prod.fst then
    d.map (fun p => if p.1 = k then (k, v) else p)
  else d ++ [(k, v)]

/-- The device loop of `main` (lines 62-80), processing the remaining
devices given the stats dict built so far.  A poll that raises is
printed and skipped (`continue`); a returned `(False, _)` has
`now_usage_w` replaced by `0`; a `today_usage == 0` is replaced by `1`;
the entry is stored with the run's single `start_time`. -/
def collectStatsAux (env : String → KasaDev) (start_time : ℤ) :
    List KasaConf → List (String × StatsEntry) → List (String × StatsEntry)
  | [], stats => stats
  | k :: rest, stats =>
    match poll_kasa (env k.ip) with
    | .error _ => collectStatsAux env start_time rest stats
    | .ok (nw, tu) =>
      collectStatsAux env start_time rest
        (dictSet stats k.name
          ⟨if pyEqZero tu then PyVal.num 1 else tu,
           if pyIsFalse nw then PyVal.num 0 else nw,
           start_time⟩)

/-- The stats dict produced by `main`'s device loop from an empty dict. -/
def collectStats (env : String → KasaDev) (start_time : ℤ)
    (devs : List KasaConf) : List (String × StatsEntry) :=
  collectStatsAux env start_time devs []

/-- The value stored under a point's single field: a Python float or a
Python int. -/
inductive PValue where
  | f : ℚ → PValue
  | i : ℤ → PValue
deriving DecidableEq, Repr

/-- One InfluxDB point dict as built by `buildPointsBuffer`: constant
measurement, a time, and a single field. -/
structure Point where
  measurement : String
  time : ℤ
  fieldName : String
  fieldValue : PValue
deriving DecidableEq, Repr

/-- The points contributed by one stats entry in `buildPointsBuffer`'s
loop body: always the power point
`{point: float(now_usage_w)}`, followed by the energy point
`{point+"_Wh": int(float(today_usage))}` when `today_usage` is truthy. -/
def pointsFor (name : String) (e : StatsEntry) : List Point :=
  ⟨"Iotawatt", e.time, name, .f (pyFloat e.now_usage_w)⟩ ::
    (if pyTruthy e.today_usage then
      [⟨"Iotawatt", e.time, name ++ "_Wh", .i (pyTrunc (pyFloat e.today_usage))⟩]
    else [])

/-- The function `buildPointsBuffer(points)`: iterate the stats dict in insertion
order, appending each entry's point(s) to the buffer. -/
def buildPointsBuffer : List (String × StatsEntry) → List Point
  | [] => []
  | p :: rest => pointsFor p.1 p.2 ++ buildPointsBuffer rest

/-- An InfluxDB client connection: `write_points` either succeeds or
raises, depending on the destination's state and the buffer sent. -/
structure SinkConn where
  write_points : List Point → Except Unit Unit

/-- One entry of the `influxes` list: the destination's name and its
client connection. -/
structure Sink where
  name : String
  conn : SinkConn

/-- The function `sendToInflux(influxdb_client, points_buffer)`: `write_points` in a
`try`, returning `True` on success and `False` on any exception. -/
def sendToInflux (c : SinkConn) (buf : List Point) : Bool :=
  match c.write_points buf with
  | .ok _ => true
  | .error _ => false

/-- The publish step of `main` (lines 98-107): when the buffer is
non-empty, send it to every destination in turn and record each
destination's outcome; when it is empty, do nothing. -/
def publishStep (influxes : List Sink) (buf : List Point) :
    List (String × Bool) :=
  if buf.length > 0 then
    influxes.map (fun d => (d.name, sendToInflux d.conn buf))
  else []

/-- The points buffer produced by one run of `main`: collect, then
build. -/
def pipelineBatch (env : String → KasaDev) (devs : List KasaConf)
    (start_time : ℤ) : List Point :=
  buildPointsBuffer (collectStats env start_time devs)

/-- One full run of `main` after configuration loading: the buffer and
the per-destination outcomes. -/
def mainRun (env : String → KasaDev) (devs : List KasaConf)
    (sinks : List Sink) (start_time : ℤ) :
    List Point × List (String × Bool) :=
  let buf := pipelineBatch env devs start_time
  (buf, publishStep sinks buf)

/-- Whether a device's poll call returns (rather than raising). -/
def pollReturns (env : String → KasaDev) (k : KasaConf) : Bool :=
  match poll_kasa (env k.ip) with
  | .ok _ => true
  | .error _ => false

/-- A successful poll means `pollReturns` holds. -/
lemma pollReturns_of_ok {env : String → KasaDev} {k : KasaConf}
    {r : PyVal × PyVal} (h : poll_kasa (env k.ip) = .ok r) :
    pollReturns env k = true := by
  unfold pollReturns
  rw [h]

/-- A raising poll means `pollReturns` fails. -/
lemma pollReturns_of_error {env : String → KasaDev} {k : KasaConf}
    {e : Unit} (h : poll_kasa (env k.ip) = .error e) :
    pollReturns env k = false := by
  unfold pollReturns
  rw [h]

/-- Storing under a key absent from the dict appends the new entry. -/
lemma dictSet_of_not_mem {d : List (String × StatsEntry)} {k : String}
    {v : StatsEntry} (h : k ∉ d.map Prod.fst) :
    dictSet d k v = d ++ [(k, v)] := by
  simp [dictSet, h]

/-- Overwriting a key in place does not change the key list. -/
lemma map_fst_overwrite (d : List (String × StatsEntry)) (k : String)
    (v : StatsEntry) :
    (d.map (fun p => if p.1 = k then (k, v) else p)).map Prod.fst =
      d.map Prod.fst := by
  induction d with
  | nil => rfl
  | cons a t ih =>
    simp only [List.map_cons, ih]
    by_cases h : a.1 = k
    · simp [h]
    · simp [h]

/-- Every entry of `dictSet d k v` is an entry of `d` or the new entry. -/
lemma mem_dictSet {d : List (String × StatsEntry)} {k : String}
    {v : StatsEntry} {p : String × StatsEntry} (hp : p ∈ dictSet d k v) :
    p ∈ d ∨ p = (k, v) := by
  unfold dictSet at hp
  split at hp
  · rcases List.mem_map.mp hp with ⟨q, hq, hfq⟩
    by_cases h : q.1 = k
    · right
      rw [← hfq]
      simp [h]
    · left
      rw [← hfq]
      simpa [h] using hq
  · rcases List.mem_append.mp hp with h | h
    · left; exact h
    · right; simpa using h

/-- Every key of `dictSet d k v` is a key of `d` or the new key. -/
lemma mem_map_fst_dictSet {d : List (String × StatsEntry)} {k : String}
    {v : StatsEntry} {a : String} (ha : a ∈ (dictSet d k v).map Prod.fst) :
    a ∈ d.map Prod.fst ∨ a = k := by
  unfold dictSet at ha
  split at ha
  · rw [map_fst_overwrite] at ha
    left; exact ha
  · rw [List.map_append] at ha
    rcases List.mem_append.mp ha with h | h
    · left; exact h
    · right; simpa using h

/-- Every key of the stats dict built by the device loop is a key it
started with or the name of a device whose poll returned. -/
lemma collectStatsAux_keys (env : String → KasaDev) (st : ℤ) :
    ∀ (devs : List KasaConf) (stats : List (String × StatsEntry)) (a : String),
      a ∈ (collectStatsAux env st devs stats).map Prod.fst →
      a ∈ stats.map Prod.fst ∨
        ∃ d ∈ devs, pollReturns env d = true ∧ a = d.name := by
  intro devs
  induction devs with
  | nil =>
    intro stats a ha
    left
    simpa [collectStatsAux] using ha
  | cons k rest ih =>
    intro stats a ha
    cases hpoll : poll_kasa (env k.ip) with
    | error e =>
      simp only [collectStatsAux, hpoll] at ha
      rcases ih stats a ha with h | ⟨d, hd, hret, heq⟩
      · left; exact h
      · right; exact ⟨d, List.mem_cons_of_mem k hd, hret, heq⟩
    | ok val =>
      obtain ⟨nw, tu⟩ := val
      simp only [collectStatsAux, hpoll] at ha
      rcases ih _ a ha with h | ⟨d, hd, hret, heq⟩
      · rcases mem_map_fst_dictSet h with h2 | h2
        · left; exact h2
        · right
          exact ⟨k, List.mem_cons_self k rest, pollReturns_of_ok hpoll, h2⟩
      · right; exact ⟨d, List.mem_cons_of_mem k hd, hret, heq⟩

/-- Every entry written by the device loop carries the run's single
start time. -/
lemma collectStatsAux_time (env : String → KasaDev) (st : ℤ) :
    ∀ (devs : List KasaConf) (stats : List (String × StatsEntry)),
      (∀ p ∈ stats, (p : String × StatsEntry).2.time = st) →
      ∀ p ∈ collectStatsAux env st devs stats, p.2.time = st := by
  intro devs
  induction devs with
  | nil =>
    intro stats hstats p hp
    exact hstats p (by simpa [collectStatsAux] using hp)
  | cons k rest ih =>
    intro stats hstats p hp
    cases hpoll : poll_kasa (env k.ip) with
    | error e =>
      simp only [collectStatsAux, hpoll] at hp
      exact ih stats hstats p hp
    | ok val =>
      obtain ⟨nw, tu⟩ := val
      simp only [collectStatsAux, hpoll] at hp
      refine ih _ ?_ p hp
      intro q hq
      rcases mem_dictSet hq with h | h
      · exact hstats q h
      · rw [h]

/-- Every point in the buffer comes from some stats entry. -/
lemma mem_buildPointsBuffer :
    ∀ {pts : List (String × StatsEntry)} {p : Point},
      p ∈ buildPointsBuffer pts → ∃ q ∈ pts, p ∈ pointsFor q.1 q.2 := by
  intro pts
  induction pts with
  | nil => intro p hp; cases hp
  | cons q rest ih =>
    intro p hp
    rw [buildPointsBuffer] at hp
    rcases List.mem_append.mp hp with h | h
    · exact ⟨q, List.mem_cons_self q rest, h⟩
    · rcases ih h with ⟨q2, hq2, hpq⟩
      exact ⟨q2, List.mem_cons_of_mem q hq2, hpq⟩

/-- A point built from one stats entry carries the entry's time and is
named after the entry's key, plainly or with the `_Wh` suffix. -/
lemma pointsFor_time_field {n : String} {e : StatsEntry} {p : Point}
    (hp : p ∈ pointsFor n e) :
    p.time = e.time ∧ (p.fieldName = n ∨ p.fieldName = n ++ "_Wh") := by
  unfold pointsFor at hp
  rcases List.mem_cons.mp hp with h | h
  · rw [h]
    exact ⟨rfl, Or.inl rfl⟩
  · split at h
    · rw [List.mem_singleton.mp h]
      exact ⟨rfl, Or.inr rfl⟩
    · cases h

/-- Every call of `poll_kasa` either raises or returns a pair of numbers
(never the literal `False`). -/
lemma poll_kasa_shape (d : KasaDev) :
    poll_kasa d = .error () ∨
      ∃ a b : ℚ, poll_kasa d = .ok (.num a, .num b) := by
  obtain ⟨u, em⟩ := d
  cases u with
  | false => left; rfl
  | true =>
    cases em with
    | none => right; exact ⟨0, 0, rfl⟩
    | some e => right; exact ⟨e.power_mw / 1000, e.emeter_today * 1000, rfl⟩

/-- C9: for every successful Kasa poll (update succeeded and the emeter
fields were readable), the returned instantaneous power is the raw
milliwatt reading divided by 1000 and the returned today-energy is the
raw kilowatt-hour reading multiplied by 1000. -/
theorem c9_kasa_unit_conversion (d : KasaDev) (e : EmeterData)
    (h1 : d.updateOk = true) (h2 : d.emeter = some e) :
    poll_kasa d = .ok (.num (e.power_mw / 1000), .num (e.emeter_today * 1000)) := by
  simp [poll_kasa, h1, h2]

theorem c9_kasa_unit_conversion_witness :
    poll_kasa ⟨true, some ⟨2, 45000⟩⟩ =
      .ok (.num ((45000 : ℚ) / 1000), .num ((2 : ℚ) * 1000)) :=
  c9_kasa_unit_conversion ⟨true, some ⟨2, 45000⟩⟩ ⟨2, 45000⟩ rfl rfl

/-- C10: when the Kasa update succeeds but the emeter read fails,
`poll_kasa` returns the pair `(0, 0)`, numerically identical to a real
zero reading; moreover no return value of `poll_kasa` is ever the
distinguished `False` marker, so the caller's `now_usage_w is False`
check can never fire for a Kasa device. -/
theorem c10_kasa_silent_zero (d : KasaDev)
    (h1 : d.updateOk = true) (h2 : d.emeter = none) :
    poll_kasa d = .ok (.num 0, .num 0) ∧
      ∀ (d2 : KasaDev) (r : PyVal × PyVal),
        poll_kasa d2 = .ok r → pyIsFalse r.1 = false := by
  refine ⟨by simp [poll_kasa, h1, h2], ?_⟩
  intro d2 r h
  rcases poll_kasa_shape d2 with hs | ⟨a, b, hs⟩
  · rw [hs] at h; cases h
  · rw [hs] at h
    injection h with h
    rw [← h]
    rfl

theorem c10_kasa_silent_zero_witness :
    poll_kasa ⟨true, none⟩ = .ok (.num 0, .num 0) :=
  (c10_kasa_silent_zero ⟨true, none⟩ rfl rfl).1

/-- C4 fails on the code: a Kasa device whose connection/update raises
(for instance an unreachable host) makes `poll_kasa` propagate the
exception rather than return a failure reading, and a Tapo device whose
session succeeds but whose response dict lacks the `"result"` key makes
`poll_tapo` raise a `KeyError` after its `try` block.  The source's own
docstring ("TODO: need to add some exception handling to this")
acknowledges the missing handling in `poll_kasa`. -/
theorem c4_pollers_can_raise :
    poll_kasa ⟨false, none⟩ = .error () ∧
      poll_tapo ⟨true, ⟨none⟩⟩ = .error () :=
  ⟨rfl, rfl⟩

/-- C6: with an empty points buffer the publish step contacts no
destination and produces no outcome. -/
theorem c6_empty_batch_no_publish (sinks : List Sink) :
    publishStep sinks [] = [] :=
  rfl

/-- C8: a reading that polled successfully with power `w` watts and
today-energy exactly 123 Wh yields exactly two points in the run's
buffer: the power point with float value `w`, then the energy point
with integer value 123. -/
theorem c8_energy_123_two_points (env : String → KasaDev) (d : KasaConf)
    (st : ℤ) (w : ℚ)
    (h : poll_kasa (env d.ip) = .ok (.num w, .num 123)) :
    pipelineBatch env [d] st =
      [⟨"Iotawatt", st, d.name, .f w⟩,
       ⟨"Iotawatt", st, d.name ++ "_Wh", .i 123⟩] := by
  simp [pipelineBatch, collectStats, collectStatsAux, h, pyIsFalse, pyEqZero,
    dictSet, buildPointsBuffer, pointsFor, pyTruthy, pyFloat, pyTrunc]

theorem c8_energy_123_two_points_witness :
    pipelineBatch (fun _ => ⟨true, some ⟨123 / 1000, 45000⟩⟩) [⟨"plug1", "ip1"⟩] 0 =
      [⟨"Iotawatt", 0, "plug1", .f 45⟩,
       ⟨"Iotawatt", 0, "plug1" ++ "_Wh", .i 123⟩] :=
  c8_energy_123_two_points (fun _ => ⟨true, some ⟨123 / 1000, 45000⟩⟩)
    ⟨"plug1", "ip1"⟩ 0 45 (by norm_num [poll_kasa])

/-- The device loop grows the stats dict by exactly one entry per
device whose poll returns, provided device names are distinct and fresh
with respect to the dict built so far. -/
lemma collectStatsAux_length (env : String → KasaDev) (st : ℤ) :
    ∀ (devs : List KasaConf) (stats : List (String × StatsEntry)),
      (devs.map KasaConf.name).Nodup →
      (∀ k ∈ devs, k.name ∉ stats.map Prod.fst) →
      (collectStatsAux env st devs stats).length =
        stats.length + (devs.filter (pollReturns env)).length := by
  intro devs
  induction devs with
  | nil =>
    intro stats _ _
    simp [collectStatsAux]
  | cons k rest ih =>
    intro stats hnd hfresh
    have hnd2 : (rest.map KasaConf.name).Nodup := by
      rw [List.map_cons] at hnd
      exact (List.nodup_cons.mp hnd).2
    have hknot : k.name ∉ rest.map KasaConf.name := by
      rw [List.map_cons] at hnd
      exact (List.nodup_cons.mp hnd).1
    cases hpoll : poll_kasa (env k.ip) with
    | error e =>
      simp only [collectStatsAux, hpoll]
      rw [ih stats hnd2 (fun k2 hk2 => hfresh k2 (List.mem_cons_of_mem k hk2))]
      rw [List.filter_cons, pollReturns_of_error hpoll]
      simp
    | ok val =>
      obtain ⟨nw, tu⟩ := val
      simp only [collectStatsAux, hpoll]
      have hkfresh : k.name ∉ stats.map Prod.fst :=
        hfresh k (List.mem_cons_self k rest)
      rw [dictSet_of_not_mem hkfresh]
      rw [ih (stats ++ [(k.name, _)]) hnd2 ?_]
      · have hflt : (k :: rest).filter (pollReturns env) =
            k :: rest.filter (pollReturns env) := by
          rw [List.filter_cons, pollReturns_of_ok hpoll]
          simp
        rw [hflt]
        simp only [List.length_append, List.length_singleton, List.length_cons,
          List.length_nil]
        omega
      · intro k2 hk2
        rw [List.map_append]
        intro hmem
        rcases List.mem_append.mp hmem with h | h
        · exact hfresh k2 (List.mem_cons_of_mem k hk2) h
        · have : k2.name = k.name := by simpa using h
          exact hknot (this ▸ List.mem_map_of_mem KasaConf.name hk2)

/-- C1 as stated is false on the code: with one configured device whose
poll raises, the device loop skips it (`continue`) and the stats dict
has zero entries, not one. -/
theorem c1_claim_counterexample :
    ¬ ((collectStats (fun _ => ⟨false, none⟩) 0 [⟨"plug1", "ip1"⟩]).length =
        ([⟨"plug1", "ip1"⟩] : List KasaConf).length) := by
  decide

/-- C1 amended: with distinct device names, the collection step returns
one entry per configured device whose poll call returned without
raising; a device whose poll raises is skipped and omitted from the
mapping. -/
theorem c1_amended_entries_per_returning_poll (env : String → KasaDev)
    (st : ℤ) (devs : List KasaConf)
    (hnd : (devs.map KasaConf.name).Nodup) :
    (collectStats env st devs).length =
      (devs.filter (pollReturns env)).length := by
  unfold collectStats
  rw [collectStatsAux_length env st devs [] hnd (by intro k hk; simp)]
  simp

theorem c1_amended_entries_per_returning_poll_witness :
    ((([⟨"plug1", "ip1"⟩, ⟨"plug2", "ip2"⟩] : List KasaConf).map
        KasaConf.name).Nodup) ∧
      (collectStats
          (fun ip => if ip = "ip1" then ⟨true, some ⟨2, 45000⟩⟩ else ⟨false, none⟩)
          0 [⟨"plug1", "ip1"⟩, ⟨"plug2", "ip2"⟩]).length =
        (([⟨"plug1", "ip1"⟩, ⟨"plug2", "ip2"⟩] : List KasaConf).filter
            (pollReturns
              (fun ip => if ip = "ip1" then ⟨true, some ⟨2, 45000⟩⟩
                else ⟨false, none⟩))).length :=
  ⟨by decide,
    c1_amended_entries_per_returning_poll
      (fun ip => if ip = "ip1" then ⟨true, some ⟨2, 45000⟩⟩ else ⟨false, none⟩)
      0 [⟨"plug1", "ip1"⟩, ⟨"plug2", "ip2"⟩] (by decide)⟩

/-- C2: a device whose poll raised contributes no point to the run's
buffer: provided no device with a returning poll carries a colliding
name, no point in the batch is named after the failed device, neither
as a power field nor as an energy field. -/
theorem c2_failed_poll_no_points (env : String → KasaDev) (st : ℤ)
    (devs : List KasaConf) (d : KasaConf) (hd : d ∈ devs)
    (hfail : pollReturns env d = false)
    (hname : ∀ d2 ∈ devs, pollReturns env d2 = true →
      d2.name ≠ d.name ∧ d2.name ≠ d.name ++ "_Wh" ∧
      d2.name ++ "_Wh" ≠ d.name ∧ d2.name ++ "_Wh" ≠ d.name ++ "_Wh") :
    ∀ p ∈ pipelineBatch env devs st,
      p.fieldName ≠ d.name ∧ p.fieldName ≠ d.name ++ "_Wh" := by
  intro p hp
  unfold pipelineBatch collectStats at hp
  rcases mem_buildPointsBuffer hp with ⟨q, hq, hpq⟩
  have hkey : q.1 ∈ (collectStatsAux env st devs []).map Prod.fst :=
    List.mem_map.mpr ⟨q, hq, rfl⟩
  rcases collectStatsAux_keys env st devs [] q.1 hkey with h0 | ⟨d2, hd2, hret, heq⟩
  · cases h0
  · rcases hname d2 hd2 hret with ⟨h1, h2, h3, h4⟩
    rcases (pointsFor_time_field hpq).2 with hf | hf
    · rw [hf, heq]
      exact ⟨h1, h2⟩
    · rw [hf, heq]
      exact ⟨h3, h4⟩

theorem c2_failed_poll_no_points_witness :
    (⟨"Iotawatt", 0, "plug1", .f 45⟩ : Point) ∈
        pipelineBatch
          (fun ip => if ip = "ip1" then ⟨true, some ⟨2, 45000⟩⟩ else ⟨false, none⟩)
          [⟨"plug1", "ip1"⟩, ⟨"plug2", "ip2"⟩] 0 ∧
      ((⟨"Iotawatt", 0, "plug1", .f 45⟩ : Point).fieldName ≠ "plug2" ∧
        (⟨"Iotawatt", 0, "plug1", .f 45⟩ : Point).fieldName ≠ "plug2" ++ "_Wh") :=
  ⟨by norm_num [pipelineBatch, collectStats, collectStatsAux, poll_kasa,
      dictSet, pyEqZero, pyIsFalse, buildPointsBuffer, pointsFor, pyTruthy,
      pyFloat, pyTrunc],
    c2_failed_poll_no_points
      (fun ip => if ip = "ip1" then ⟨true, some ⟨2, 45000⟩⟩ else ⟨false, none⟩)
      0 [⟨"plug1", "ip1"⟩, ⟨"plug2", "ip2"⟩] ⟨"plug2", "ip2"⟩
      (by decide) (by decide) (by decide)
      ⟨"Iotawatt", 0, "plug1", .f 45⟩
      (by norm_num [pipelineBatch, collectStats, collectStatsAux, poll_kasa,
        dictSet, pyEqZero, pyIsFalse, buildPointsBuffer, pointsFor, pyTruthy,
        pyFloat, pyTrunc])⟩

/-- C3 as stated is false on the code: a device polling successfully
with power 5 W and today-energy exactly 0 Wh yields two points, not
one; `main` replaces the zero today-energy by 1 and the buffer gains a
substitute energy point of integer value 1. -/
theorem c3_claim_counterexample :
    ¬ ((pipelineBatch (fun _ => ⟨true, some ⟨0, 5000⟩⟩)
          [⟨"plug1", "ip1"⟩] 0).length = 1) ∧
      pipelineBatch (fun _ => ⟨true, some ⟨0, 5000⟩⟩) [⟨"plug1", "ip1"⟩] 0 =
        [⟨"Iotawatt", 0, "plug1", .f 5⟩,
         ⟨"Iotawatt", 0, "plug1" ++ "_Wh", .i 1⟩] := by
  constructor
  · norm_num [pipelineBatch, collectStats, collectStatsAux, poll_kasa,
      dictSet, pyEqZero, pyIsFalse, buildPointsBuffer, pointsFor, pyTruthy,
      pyFloat, pyTrunc]
  · norm_num [pipelineBatch, collectStats, collectStatsAux, poll_kasa,
      dictSet, pyEqZero, pyIsFalse, buildPointsBuffer, pointsFor, pyTruthy,
      pyFloat, pyTrunc]

/-- C3 amended: a reading that polled successfully with zero
today-energy yields exactly two points, the power point and an energy
point with the substitute integer value 1 — `main` replaces a zero
`today_usage` by 1 before point building, so the energy point is not
suppressed end to end. -/
theorem c3_amended_zero_energy_substituted (env : String → KasaDev)
    (d : KasaConf) (st : ℤ) (w : ℚ)
    (h : poll_kasa (env d.ip) = .ok (.num w, .num 0)) :
    pipelineBatch env [d] st =
      [⟨"Iotawatt", st, d.name, .f w⟩,
       ⟨"Iotawatt", st, d.name ++ "_Wh", .i 1⟩] := by
  simp [pipelineBatch, collectStats, collectStatsAux, h, pyIsFalse, pyEqZero,
    dictSet, buildPointsBuffer, pointsFor, pyTruthy, pyFloat, pyTrunc]

theorem c3_amended_zero_energy_substituted_witness :
    pipelineBatch (fun _ => ⟨true, some ⟨0, 5000⟩⟩) [⟨"plug1", "ip1"⟩] 0 =
      [⟨"Iotawatt", 0, "plug1", .f 5⟩,
       ⟨"Iotawatt", 0, "plug1" ++ "_Wh", .i 1⟩] :=
  c3_amended_zero_energy_substituted (fun _ => ⟨true, some ⟨0, 5000⟩⟩)
    ⟨"plug1", "ip1"⟩ 0 5 (by norm_num [poll_kasa])

/-- C5: every point of a run's buffer carries the run's single
collection-start time, whatever each device's poll did. -/
theorem c5_single_timestamp (env : String → KasaDev) (devs : List KasaConf)
    (st : ℤ) (p : Point) (hp : p ∈ pipelineBatch env devs st) :
    p.time = st := by
  unfold pipelineBatch collectStats at hp
  rcases mem_buildPointsBuffer hp with ⟨q, hq, hpq⟩
  have ht : q.2.time = st :=
    collectStatsAux_time env st devs [] (by intro p hp; cases hp) q hq
  rw [(pointsFor_time_field hpq).1, ht]

theorem c5_single_timestamp_witness :
    (⟨"Iotawatt", 7, "plug1", .f 45⟩ : Point) ∈
        pipelineBatch (fun _ => ⟨true, some ⟨2, 45000⟩⟩) [⟨"plug1", "ip1"⟩] 7 ∧
      (⟨"Iotawatt", 7, "plug1", .f 45⟩ : Point).time = 7 :=
  ⟨by norm_num [pipelineBatch, collectStats, collectStatsAux, poll_kasa,
      dictSet, pyEqZero, pyIsFalse, buildPointsBuffer, pointsFor, pyTruthy,
      pyFloat, pyTrunc],
    c5_single_timestamp (fun _ => ⟨true, some ⟨2, 45000⟩⟩) [⟨"plug1", "ip1"⟩] 7
      ⟨"Iotawatt", 7, "plug1", .f 45⟩
      (by norm_num [pipelineBatch, collectStats, collectStatsAux, poll_kasa,
        dictSet, pyEqZero, pyIsFalse, buildPointsBuffer, pointsFor, pyTruthy,
        pyFloat, pyTrunc])⟩

/-- C7: with a non-empty buffer, every destination receives exactly one
delivery attempt of the identical buffer, in configuration order; one
destination's failure is caught inside `sendToInflux` and recorded as
`false` without affecting the attempts at the remaining destinations. -/
theorem c7_fanout_isolated_failures (sinks : List Sink) (buf : List Point)
    (h : buf ≠ []) :
    publishStep sinks buf =
      sinks.map (fun s => (s.name, sendToInflux s.conn buf)) := by
  unfold publishStep
  rw [if_pos]
  exact List.length_pos.mpr h

theorem c7_fanout_isolated_failures_witness :
    ([⟨"Iotawatt", 0, "plug1", .f 1⟩] : List Point) ≠ [] ∧
      publishStep
          [⟨"sinkA", ⟨fun _ => .ok ()⟩⟩, ⟨"sinkB", ⟨fun _ => .error ()⟩⟩]
          [⟨"Iotawatt", 0, "plug1", .f 1⟩] =
        [("sinkA", true), ("sinkB", false)] :=
  ⟨by simp,
    by
      rw [c7_fanout_isolated_failures
        [⟨"sinkA", ⟨fun _ => .ok ()⟩⟩, ⟨"sinkB", ⟨fun _ => .error ()⟩⟩]
        [⟨"Iotawatt", 0, "plug1", .f 1⟩] (by simp)]
      rfl⟩

end Collect
